import Mathlib

/-!
Shallow embedding of the smartAPI registry handlers
(`src/handlers/api.py`) and the MetaKG search document model
(`src/model/metakg.py`), together with the parts of the controller that
the handlers call, modelled from the specification where the controller
module itself is not part of the sources.
-/

deriving instance DecidableEq for Except

namespace SmartAPIReg

/-- HTTP-level failures raised by the handlers (`tornado.web.HTTPError`). -/
inductive HErr where
  | notFound
  | forbidden
  | conflict
  | badRequest (reason : String)
deriving DecidableEq

/-- Modelled from the spec: the closed set of web states of a registry entry
(the controller module defining `smartapi.webdoc.STATUS` is not among the
sources).  VALID / INVALID / UNAVAILABLE / UNKNOWN come from the status-code
mapping; NOFILE marks a failed fetch with the prior copy retained. -/
inductive WebStatus where
  | VALID
  | INVALID
  | UNAVAILABLE
  | UNKNOWN
  | NOFILE
deriving DecidableEq

/-- ASCII lowercasing, as Python's `str.lower()` and the Elasticsearch
`lowercase` filter act on the names and terms appearing here. -/
def strToLower (s : String) : String := String.mk (s.data.map Char.toLower)

/-- The enum member names, as Python's `status.name` would yield them. -/
def WebStatus.name : WebStatus → String
  | WebStatus.VALID => "VALID"
  | WebStatus.INVALID => "INVALID"
  | WebStatus.UNAVAILABLE => "UNAVAILABLE"
  | WebStatus.UNKNOWN => "UNKNOWN"
  | WebStatus.NOFILE => "NOFILE"

/-- Modelled from the spec: the status-code mapping of the missing controller —
codes in the success range 200–299 map to VALID, client-error codes to a named
failure state, server-error codes to another, and any unmapped code to UNKNOWN. -/
def WebStatus.ofCode (code : Nat) : WebStatus :=
  if 200 ≤ code ∧ code ≤ 299 then WebStatus.VALID
  else if 400 ≤ code ∧ code ≤ 499 then WebStatus.INVALID
  else if 500 ≤ code ∧ code ≤ 599 then WebStatus.UNAVAILABLE
  else WebStatus.UNKNOWN

/-- One registered API document with its lifecycle metadata. -/
structure RegistryEntry where
  _id : String
  url : String
  username : String
  slug : Option String
  rawDocument : String
  version : String
  webStatus : WebStatus
  lastCheckedCode : Option Nat
deriving DecidableEq

/-- The persisted registry, as the document store the handlers read and write. -/
abbrev Store := List RegistryEntry

def lookupId (store : Store) (i : String) : Option RegistryEntry :=
  List.find? (fun e => e._id == i) store

def updateEntry (store : Store) (i : String) (e2 : RegistryEntry) : Store :=
  List.map (fun e => if e._id == i then e2 else e) store

def removeEntry (store : Store) (i : String) : Store :=
  List.filter (fun e => !(e._id == i)) store

def urlExists (store : Store) (u : String) : Bool :=
  List.any store (fun e => e.url == u)

/-- Outward side effects a handler performs, in order. -/
inductive Effect where
  | fetched (url : String)
  | saved
  | deleted (i : String)
  | notified
deriving DecidableEq

/-- Result of one handler invocation: the HTTP outcome, the store afterwards,
and the side effects performed, in order. -/
structure Outcome (α : Type) where
  result : Except HErr α
  store : Store
  effects : List Effect
deriving DecidableEq

/-- Outcome of `download_async(url, raise_error=False)`: either the download
failed, or it returned a file with a status code and raw content. -/
inductive FetchResult where
  | failure
  | success (code : Nat) (content : String)
deriving DecidableEq

/-- Modelled from the spec: the controller's `refresh` operation (module
`controller`, not among the sources).  On a successful fetch whose content
validates, it replaces `rawDocument`/`version` and sets `webStatus` from the
status-code mapping; on a failed fetch or failed validation it retains the
previous `rawDocument` and sets `webStatus = NOFILE`.  It returns the raw
status code observed, or none when the fetch failed.  The validator is passed
in as a function from raw content to an error message or a version string. -/
def refreshEntry (validate : String → Except String String)
    (e : RegistryEntry) (f : FetchResult) : RegistryEntry × Option Nat :=
  match f with
  | FetchResult.failure =>
      ({ e with webStatus := WebStatus.NOFILE, lastCheckedCode := none }, none)
  | FetchResult.success code content =>
      match validate content with
      | Except.ok ver =>
          ({ e with rawDocument := content, version := ver,
                    webStatus := WebStatus.ofCode code,
                    lastCheckedCode := some code }, some code)
      | Except.error _ =>
          ({ e with webStatus := WebStatus.NOFILE,
                    lastCheckedCode := some code }, some code)

/-- The handler's status-name computation (`api.py` lines 265–269):
`STATUS(code).name.lower()`, with the `ValueError` branch — the code the
`STATUS` enum cannot map, i.e. a missing code from a failed fetch — yielding
`"nofile"`. -/
def statusNameOfCode : Option Nat → String
  | none => "nofile"
  | some c => strToLower (WebStatus.ofCode c).name

/-- The reserved slug set of `SmartAPIHandler.put` (`{"api"}`). -/
def reservedSlugs : List String := ["api"]

/-- Modelled from the spec: the slug-uniqueness check the controller's `save`
enforces — another entry already holding the slug is a conflict. -/
def slugTaken (store : Store) (i : String) (s : String) : Bool :=
  List.any store (fun e => !(e._id == i) && e.slug == some s)

/-- Responses of `SmartAPIHandler.put`: slug update replies `{"success": true}`;
refresh replies `{"success": code in (200, 299), "status": ..., "code": ...}`. -/
inductive PutResponse where
  | slugOk
  | refreshed (success : Bool) (status : String) (code : Option Nat)
deriving DecidableEq

/-- `SmartAPIHandler.put` (`api.py` lines 229–271): look the entry up (404 if
absent), check ownership (403 on mismatch), then either update the slug
(400 when reserved, clearing on empty, conflict mapped to 400 when taken)
or refresh: fetch with `raise_error=False`, run the controller refresh, save,
and reply with the success flag `code in (200, 299)` — a Python tuple
membership, true only for exactly 200 or 299 — plus status name and raw code. -/
def putHandler (validate : String → Except String String) (store : Store)
    (actingUser : String) (i : String) (slug : Option String)
    (fetch : FetchResult) : Outcome PutResponse :=
  match lookupId store i with
  | none => ⟨Except.error HErr.notFound, store, []⟩
  | some e =>
      if e.username ≠ actingUser then ⟨Except.error HErr.forbidden, store, []⟩
      else
        match slug with
        | some s =>
            if s ∈ reservedSlugs then
              ⟨Except.error (HErr.badRequest "slug is reserved"), store, []⟩
            else if s ≠ "" ∧ slugTaken store i s then
              ⟨Except.error (HErr.badRequest "slug is already registered"), store, []⟩
            else
              let e2 := { e with slug := if s = "" then none else some s }
              ⟨Except.ok PutResponse.slugOk, updateEntry store i e2, [Effect.saved]⟩
        | none =>
            let r := refreshEntry validate e fetch
            ⟨Except.ok (PutResponse.refreshed
                 (r.2 == some 200 || r.2 == some 299)
                 (statusNameOfCode r.2) r.2),
              updateEntry store i r.1,
              [Effect.fetched e.url, Effect.saved]⟩

/-- Responses of `SmartAPIHandler.post`: a dryrun replies with the validated
version; a real create replies with the new id. -/
inductive PostResponse where
  | dryrunOk (version : String)
  | created (i : String)
deriving DecidableEq

/-- `SmartAPIHandler.post` (`api.py` lines 149–180): 409 when the url is
already registered (checked before anything else); then download (400 on
download error); then validate (400 on validation error); on `dryrun` finish
with the version and no persistence; otherwise populate the entry via the
controller refresh, save it, reply with the id, and only then notify. -/
def postHandler (validate : String → Except String String) (store : Store)
    (actingUser : String) (url : String) (dryrun : Bool)
    (fetch : Except String (Nat × String)) (freshId : String) :
    Outcome PostResponse :=
  if urlExists store url then ⟨Except.error HErr.conflict, store, []⟩
  else
    match fetch with
    | Except.error msg =>
        ⟨Except.error (HErr.badRequest msg), store, [Effect.fetched url]⟩
    | Except.ok (code, raw) =>
        match validate raw with
        | Except.error msg =>
            ⟨Except.error (HErr.badRequest msg), store, [Effect.fetched url]⟩
        | Except.ok ver =>
            if dryrun then
              ⟨Except.ok (PostResponse.dryrunOk ver), store, [Effect.fetched url]⟩
            else
              let e0 : RegistryEntry :=
                { _id := freshId, url := url, username := actingUser,
                  slug := none, rawDocument := "", version := ver,
                  webStatus := WebStatus.UNKNOWN, lastCheckedCode := none }
              let e1 := (refreshEntry validate e0 (FetchResult.success code raw)).1
              ⟨Except.ok (PostResponse.created freshId), store ++ [e1],
                [Effect.fetched url, Effect.saved, Effect.notified]⟩

/-- `SmartAPIHandler.delete` (`api.py` lines 274–292): 404 if absent, 403 on
ownership mismatch, otherwise delete the entry and reply with its id. -/
def deleteHandler (store : Store) (actingUser : String) (i : String) :
    Outcome String :=
  match lookupId store i with
  | none => ⟨Except.error HErr.notFound, store, []⟩
  | some e =>
      if e.username ≠ actingUser then ⟨Except.error HErr.forbidden, store, []⟩
      else ⟨Except.ok i, removeEntry store i, [Effect.deleted i]⟩

/-- Modelled from the spec: the controller's `check` (uptime probe, module
`controller` not among the sources) — a liveness fetch of `sourceURL` that
updates only the status fields and returns the status name. -/
def checkEntry (e : RegistryEntry) (fetchCode : Option Nat) :
    RegistryEntry × String :=
  ({ e with
      webStatus := match fetchCode with
        | none => WebStatus.NOFILE
        | some c => WebStatus.ofCode c,
      lastCheckedCode := fetchCode },
   statusNameOfCode fetchCode)

/-- `UptimeHandler.get` (`api.py` lines 334–352): 400 on empty id, 404 if the
entry is absent, 403 on ownership mismatch — and only then the liveness check
and save, replying with the status name. -/
def uptimeGetHandler (store : Store) (actingUser : String) (i : String)
    (fetchCode : Option Nat) : Outcome String :=
  if i = "" then
    ⟨Except.error (HErr.badRequest "Missing required parameter: id"), store, []⟩
  else
    match lookupId store i with
    | none => ⟨Except.error HErr.notFound, store, []⟩
    | some e =>
        if e.username ≠ actingUser then ⟨Except.error HErr.forbidden, store, []⟩
        else
          let r := checkEntry e fetchCode
          ⟨Except.ok r.2, updateEntry store i r.1,
            [Effect.fetched e.url, Effect.saved]⟩

/-- Arguments of `MetaKGQueryHandler.get`: three optional filter fields and
the `expand` flag (default false). -/
structure QueryArgs where
  subject : Option String
  object : Option String
  predicate : Option String
  expand : Bool
deriving DecidableEq

/-- The value an argument field holds after processing: either the original
string (field skipped) or the list of match terms it was replaced with. -/
inductive FieldVal where
  | str (s : String)
  | lst (l : List String)
deriving DecidableEq

/-- The processed argument fields handed to the generic query layer. -/
structure ProcessedArgs where
  subject : Option FieldVal
  object : Option FieldVal
  predicate : Option FieldVal
deriving DecidableEq

/-- The error message of `MetaKGQueryHandler.get` when descendant lookup
fails. -/
def descErrorMsg (field v ex : String) : String :=
  "Cannot get descendants for field: `" ++ field ++ "` with value: `" ++ v ++
    "`. Error: " ++ ex

/-- One iteration of the field loop in `MetaKGQueryHandler.get`
(`api.py` lines 397–410): a falsy value (absent or empty string) is skipped
unchanged; with the toolkit present the value is replaced by its descendant
list, a lookup failure raising a 400 naming the field and value; without the
toolkit the value is wrapped into a one-element list. -/
def processField (tk : Option (String → Except String (List String)))
    (field : String) (v : Option String) : Except HErr (Option FieldVal) :=
  match v with
  | none => Except.ok none
  | some s =>
      if s = "" then Except.ok (some (FieldVal.str s))
      else
        match tk with
        | some f =>
            match f s with
            | Except.ok ds => Except.ok (some (FieldVal.lst ds))
            | Except.error ex =>
                Except.error (HErr.badRequest (descErrorMsg field s ex))
        | none => Except.ok (some (FieldVal.lst [s]))

/-- Outcome of `MetaKGQueryHandler.get`: the processed arguments or the
error, and whether the query against the document store
(`await super().get(...)`) was reached. -/
structure QueryOutcome where
  result : Except HErr ProcessedArgs
  queryExecuted : Bool
deriving DecidableEq

/-- `MetaKGQueryHandler.get` (`api.py` lines 392–412): instantiate the
toolkit only when `expand` is set, process the fields in the order subject,
object, predicate — a lookup failure aborts the request before the query
layer runs — then execute the query with the processed arguments.  The
toolkit lookup (`bmt.Toolkit().get_descendants`, an external dependency) is
passed in as a function. -/
def metaKGGet (tkLookup : String → Except String (List String))
    (args : QueryArgs) : QueryOutcome :=
  let tk := if args.expand then some tkLookup else none
  match processField tk "subject" args.subject with
  | Except.error e => ⟨Except.error e, false⟩
  | Except.ok s =>
      match processField tk "object" args.object with
      | Except.error e => ⟨Except.error e, false⟩
      | Except.ok o =>
          match processField tk "predicate" args.predicate with
          | Except.error e => ⟨Except.error e, false⟩
          | Except.ok p => ⟨Except.ok ⟨s, o, p⟩, true⟩

/-! ## MetaKG search document mapping (`src/model/metakg.py`) -/

/-- An Elasticsearch keyword field declaration: whether the
`lowercase_normalizer` is attached, and the `copy_to` targets. -/
structure KeywordField where
  hasLowercaseNormalizer : Bool
  copyTo : List String
deriving DecidableEq

/-- `lowercase_keyword` (`metakg.py` line 12). -/
def lowercase_keyword : KeywordField := ⟨true, []⟩

/-- `lowercase_keyword_copy_to_all` (`metakg.py` lines 13–15). -/
def lowercase_keyword_copy_to_all : KeywordField := ⟨true, ["all"]⟩

/-- `lowercase_keyword_node` (`metakg.py` lines 16–18). -/
def lowercase_keyword_node : KeywordField := ⟨true, ["all", "node"]⟩

/-- The keyword fields of `MetaKGDoc` (`metakg.py` lines 59–64). -/
structure MetaKGMapping where
  subject : KeywordField
  object : KeywordField
  predicate : KeywordField

def metaKGDocMapping : MetaKGMapping :=
  { subject := lowercase_keyword_node,
    object := lowercase_keyword_node,
    predicate := lowercase_keyword_copy_to_all }

/-- Modelled Elasticsearch semantics (the store engine is an external
collaborator): a keyword field with the lowercase normalizer indexes the
case-folded term; without it the term is indexed verbatim.  The stored
`_source` always keeps the submitted value. -/
def indexedTerm (f : KeywordField) (v : String) : String :=
  if f.hasLowercaseNormalizer then strToLower v else v

/-- The indexed image of one MetaKG relation: the exact-match keyword terms
and the `_source` copy used for display. -/
structure IndexedTriple where
  subjectTerm : String
  objectTerm : String
  predicateTerm : String
  sourceSubject : String
  sourceObject : String
  sourcePredicate : String
deriving DecidableEq

/-- Indexing one relation triple into the `MetaKGDoc` index. -/
def indexMetaKGDoc (s o p : String) : IndexedTriple :=
  { subjectTerm := indexedTerm metaKGDocMapping.subject s,
    objectTerm := indexedTerm metaKGDocMapping.object o,
    predicateTerm := indexedTerm metaKGDocMapping.predicate p,
    sourceSubject := s,
    sourceObject := o,
    sourcePredicate := p }

/-! ## Concrete fixtures used by witnesses -/

/-- A concrete validator: accepts one fixed document. -/
def validate0 : String → Except String String :=
  fun raw => if raw = "openapi-doc" then Except.ok "3.0.0"
             else Except.error "Unable to validate metadata"

/-- A concrete registered entry owned by alice. -/
def entry0 : RegistryEntry :=
  { _id := "a1", url := "https://example.org/api.json", username := "alice",
    slug := none, rawDocument := "openapi-doc", version := "3.0.0",
    webStatus := WebStatus.VALID, lastCheckedCode := some 200 }

/-- A concrete store holding exactly `entry0`. -/
def store0 : Store := [entry0]

/-- A concrete taxonomy lookup: knows "Gene" and "Disease". -/
def tk0 : String → Except String (List String) :=
  fun v =>
    if v = "Gene" then Except.ok ["Gene", "ProteinCodingGene"]
    else if v = "Disease" then Except.ok ["Disease"]
    else Except.error "unknown term"

/-- The success flag of a refresh response, when the outcome is one. -/
def refreshSuccessFlag (o : Outcome PutResponse) : Option Bool :=
  match o.result with
  | Except.ok (PutResponse.refreshed b _ _) => some b
  | _ => none

/-! ## Theorems -/

/-- Looking an id up after updating that id's entry finds the updated entry. -/
theorem lookupId_updateEntry (store : Store) (i : String) (e e2 : RegistryEntry)
    (h : lookupId store i = some e) (h2 : e2._id = e._id) :
    lookupId (updateEntry store i e2) i = some e2 := by
  induction store with
  | nil => simp [lookupId] at h
  | cons a l ih =>
      by_cases ha : (a._id == i) = true
      · have he2 : a = e := by simpa [lookupId, List.find?, ha] using h
        subst he2
        have hb : (e2._id == i) = true := by
          rw [beq_iff_eq] at ha ⊢
          rw [h2]
          exact ha
        simp [lookupId, List.find?, updateEntry, ha, hb]
      · have hb : (a._id == i) = false := eq_false_of_ne_true ha
        have h2l : lookupId l i = some e := by
          simpa [lookupId, List.find?, hb] using h
        simpa [lookupId, List.find?, updateEntry, hb] using ih h2l

/-- C1 counterexample: a refresh (PUT without slug) on an existing entry owned
by the acting user whose fetch fails does complete, but its response carries
`success: false` — `code in (200, 299)` with no code — not `success: true` as
claimed. -/
theorem C1_refresh_failed_fetch_reports_success_false :
    refreshSuccessFlag
        (putHandler validate0 store0 "alice" "a1" none FetchResult.failure)
      = some false ∧
    (putHandler validate0 store0 "alice" "a1" none FetchResult.failure).result
      = Except.ok (PutResponse.refreshed false "nofile" none) :=
  ⟨by decide, by decide⟩

/-- C1 (amended): for every refresh request (PUT with no slug) on an existing
entry owned by the acting user, a failed or non-successful fetch of the source
url is recovered into a status value and the request completes without an HTTP
error, reporting the computed status name and the raw status code; the
response's success field equals the Python membership `code in (200, 299)` —
true only when the code is exactly 200 or 299, hence false for a failed or
non-successful fetch — and the fetch failure is never propagated as a request
failure. -/
theorem C1_refresh_recovers_fetch_failure
    (validate : String → Except String String) (store : Store)
    (u i : String) (e : RegistryEntry) (fetch : FetchResult)
    (he : lookupId store i = some e) (hw : e.username = u) :
    putHandler validate store u i none fetch =
      ⟨Except.ok (PutResponse.refreshed
          ((refreshEntry validate e fetch).2 == some 200 ||
            (refreshEntry validate e fetch).2 == some 299)
          (statusNameOfCode (refreshEntry validate e fetch).2)
          (refreshEntry validate e fetch).2),
        updateEntry store i (refreshEntry validate e fetch).1,
        [Effect.fetched e.url, Effect.saved]⟩ := by
  simp [putHandler, he, hw]

/-- C1 witness: the amended theorem applied to a concrete owned entry with a
failed fetch. -/
theorem C1_refresh_recovers_fetch_failure_witness :
    lookupId store0 "a1" = some entry0 ∧
    putHandler validate0 store0 "alice" "a1" none FetchResult.failure =
      ⟨Except.ok (PutResponse.refreshed
          ((refreshEntry validate0 entry0 FetchResult.failure).2 == some 200 ||
            (refreshEntry validate0 entry0 FetchResult.failure).2 == some 299)
          (statusNameOfCode (refreshEntry validate0 entry0 FetchResult.failure).2)
          (refreshEntry validate0 entry0 FetchResult.failure).2),
        updateEntry store0 "a1" (refreshEntry validate0 entry0 FetchResult.failure).1,
        [Effect.fetched entry0.url, Effect.saved]⟩ :=
  ⟨by decide,
    C1_refresh_recovers_fetch_failure validate0 store0 "alice" "a1" entry0
      FetchResult.failure (by decide) rfl⟩

/-- C2: in the refresh response, a fetched status code in the success range
200–299 yields the status name "valid", and a code outside every mapped range
(not 200–299, not 400–499, not 500–599) yields "unknown". -/
theorem C2_refresh_status_valid_and_unknown
    (validate : String → Except String String) (store : Store)
    (u i : String) (e : RegistryEntry) (c : Nat) (content ver : String)
    (he : lookupId store i = some e) (hw : e.username = u)
    (hv : validate content = Except.ok ver) :
    ((200 ≤ c ∧ c ≤ 299) →
      (putHandler validate store u i none (FetchResult.success c content)).result
        = Except.ok (PutResponse.refreshed (c == 200 || c == 299) "valid" (some c))) ∧
    (¬(200 ≤ c ∧ c ≤ 299) → ¬(400 ≤ c ∧ c ≤ 499) → ¬(500 ≤ c ∧ c ≤ 599) →
      (putHandler validate store u i none (FetchResult.success c content)).result
        = Except.ok (PutResponse.refreshed (c == 200 || c == 299) "unknown" (some c))) := by
  have base : (putHandler validate store u i none (FetchResult.success c content)).result
      = Except.ok (PutResponse.refreshed (c == 200 || c == 299)
          (statusNameOfCode (some c)) (some c)) := by
    simp [putHandler, he, hw, refreshEntry, hv, statusNameOfCode]
  constructor
  · intro h
    rw [base]
    have : statusNameOfCode (some c) = "valid" := by
      simp [statusNameOfCode, WebStatus.ofCode, h]
      rfl
    rw [this]
  · intro h1 h2 h3
    rw [base]
    have : statusNameOfCode (some c) = "unknown" := by
      simp [statusNameOfCode, WebStatus.ofCode, h1, h2, h3]
      rfl
    rw [this]

/-- C2 witness: the mapping theorem applied at a concrete entry, once with the
in-range code 250 and once with the unmapped code 777. -/
theorem C2_refresh_status_valid_and_unknown_witness :
    ((putHandler validate0 store0 "alice" "a1" none
          (FetchResult.success 250 "openapi-doc")).result
        = Except.ok (PutResponse.refreshed false "valid" (some 250))) ∧
    ((putHandler validate0 store0 "alice" "a1" none
          (FetchResult.success 777 "openapi-doc")).result
        = Except.ok (PutResponse.refreshed false "unknown" (some 777))) :=
  ⟨(C2_refresh_status_valid_and_unknown validate0 store0 "alice" "a1" entry0
        250 "openapi-doc" "3.0.0" (by decide) rfl rfl).1 (by decide),
    (C2_refresh_status_valid_and_unknown validate0 store0 "alice" "a1" entry0
        777 "openapi-doc" "3.0.0" (by decide) rfl rfl).2
      (by decide) (by decide) (by decide)⟩

/-- C3: a refresh whose fetch fails replies with the failure status "nofile"
and persists an entry identical to the previous one except for the status
fields — `rawDocument` and `version` are bit-identical to before the call. -/
theorem C3_refresh_failure_retains_content
    (validate : String → Except String String) (store : Store)
    (u i : String) (e : RegistryEntry)
    (he : lookupId store i = some e) (hw : e.username = u) :
    (putHandler validate store u i none FetchResult.failure).result
      = Except.ok (PutResponse.refreshed false "nofile" none) ∧
    lookupId (putHandler validate store u i none FetchResult.failure).store i
      = some { e with webStatus := WebStatus.NOFILE, lastCheckedCode := none } := by
  constructor
  · simp [putHandler, he, hw, refreshEntry, statusNameOfCode]
  · have hs : (putHandler validate store u i none FetchResult.failure).store
        = updateEntry store i
            { e with webStatus := WebStatus.NOFILE, lastCheckedCode := none } := by
      simp [putHandler, he, hw, refreshEntry]
    rw [hs]
    exact lookupId_updateEntry store i e _ he rfl

/-- C3 witness: the frame theorem applied to the concrete owned entry. -/
theorem C3_refresh_failure_retains_content_witness :
    lookupId store0 "a1" = some entry0 ∧
    (putHandler validate0 store0 "alice" "a1" none FetchResult.failure).result
      = Except.ok (PutResponse.refreshed false "nofile" none) ∧
    lookupId (putHandler validate0 store0 "alice" "a1" none FetchResult.failure).store "a1"
      = some { entry0 with webStatus := WebStatus.NOFILE, lastCheckedCode := none } :=
  ⟨by decide,
    (C3_refresh_failure_retains_content validate0 store0 "alice" "a1" entry0
        (by decide) rfl).1,
    (C3_refresh_failure_retains_content validate0 store0 "alice" "a1" entry0
        (by decide) rfl).2⟩

/-- C4: with expand true, each present (non-empty) field whose taxonomy lookup
succeeds is replaced by the returned match set — for the reflexive descendant
lookup this is the value together with its descendants — while with expand
false each present field is wrapped into the single-element list [value];
absent fields are left untouched; and the handler passes exactly the
per-field-processed values on to the query. -/
theorem C4_expansion_replaces_present_fields
    (tk : String → Except String (List String)) (n : String)
    (args : QueryArgs) (v : String) (ds : List String)
    (S O P : Option FieldVal) :
    (v ≠ "" → tk v = Except.ok (v :: ds) →
      processField (some tk) n (some v)
        = Except.ok (some (FieldVal.lst (v :: ds)))) ∧
    (v ≠ "" →
      processField none n (some v) = Except.ok (some (FieldVal.lst [v]))) ∧
    (processField (some tk) n none = Except.ok none ∧
      processField none n none = Except.ok none) ∧
    (args.expand = true →
      processField (some tk) "subject" args.subject = Except.ok S →
      processField (some tk) "object" args.object = Except.ok O →
      processField (some tk) "predicate" args.predicate = Except.ok P →
      metaKGGet tk args = ⟨Except.ok ⟨S, O, P⟩, true⟩) ∧
    (args.expand = false →
      processField none "subject" args.subject = Except.ok S →
      processField none "object" args.object = Except.ok O →
      processField none "predicate" args.predicate = Except.ok P →
      metaKGGet tk args = ⟨Except.ok ⟨S, O, P⟩, true⟩) := by
  refine ⟨?_, ?_, ⟨rfl, rfl⟩, ?_, ?_⟩
  · intro hv htk
    simp [processField, hv, htk]
  · intro hv
    simp [processField, hv]
  · intro hx h1 h2 h3
    simp [metaKGGet, hx, h1, h2, h3]
  · intro hx h1 h2 h3
    simp [metaKGGet, hx, h1, h2, h3]

/-- C4 witness: with the concrete lookup, expand true replaces subject "Gene"
with its descendant set and expand false wraps it into ["Gene"], the object
and predicate fields staying untouched. -/
theorem C4_expansion_replaces_present_fields_witness :
    metaKGGet tk0 ⟨some "Gene", none, none, true⟩
      = ⟨Except.ok ⟨some (FieldVal.lst ["Gene", "ProteinCodingGene"]), none, none⟩, true⟩ ∧
    metaKGGet tk0 ⟨some "Gene", none, none, false⟩
      = ⟨Except.ok ⟨some (FieldVal.lst ["Gene"]), none, none⟩, true⟩ :=
  ⟨(C4_expansion_replaces_present_fields tk0 "subject" ⟨some "Gene", none, none, true⟩
        "Gene" ["ProteinCodingGene"]
        (some (FieldVal.lst ["Gene", "ProteinCodingGene"])) none none).2.2.2.1
      rfl (by decide) rfl rfl,
    (C4_expansion_replaces_present_fields tk0 "subject" ⟨some "Gene", none, none, false⟩
        "Gene" ["ProteinCodingGene"]
        (some (FieldVal.lst ["Gene"])) none none).2.2.2.2
      rfl (by decide) rfl rfl⟩

/-- C5: with expand true, a failing taxonomy lookup on any present field fails
the whole request with a 400 whose message names the offending field and its
value, and the query against the document store is not executed. -/
theorem C5_expansion_failure_aborts_request
    (tk : String → Except String (List String)) (args : QueryArgs)
    (ex : String) (hx : args.expand = true) :
    (∀ v, args.subject = some v → v ≠ "" → tk v = Except.error ex →
      metaKGGet tk args
        = ⟨Except.error (HErr.badRequest (descErrorMsg "subject" v ex)), false⟩) ∧
    (∀ S v, processField (some tk) "subject" args.subject = Except.ok S →
      args.object = some v → v ≠ "" → tk v = Except.error ex →
      metaKGGet tk args
        = ⟨Except.error (HErr.badRequest (descErrorMsg "object" v ex)), false⟩) ∧
    (∀ S O v, processField (some tk) "subject" args.subject = Except.ok S →
      processField (some tk) "object" args.object = Except.ok O →
      args.predicate = some v → v ≠ "" → tk v = Except.error ex →
      metaKGGet tk args
        = ⟨Except.error (HErr.badRequest (descErrorMsg "predicate" v ex)), false⟩) := by
  refine ⟨?_, ?_, ?_⟩
  · intro v hs hv htk
    have hfail : processField (some tk) "subject" args.subject
        = Except.error (HErr.badRequest (descErrorMsg "subject" v ex)) := by
      rw [hs]
      simp [processField, hv, htk]
    simp [metaKGGet, hx, hfail]
  · intro S v h1 ho hv htk
    have hfail : processField (some tk) "object" args.object
        = Except.error (HErr.badRequest (descErrorMsg "object" v ex)) := by
      rw [ho]
      simp [processField, hv, htk]
    simp [metaKGGet, hx, h1, hfail]
  · intro S O v h1 h2 hp hv htk
    have hfail : processField (some tk) "predicate" args.predicate
        = Except.error (HErr.badRequest (descErrorMsg "predicate" v ex)) := by
      rw [hp]
      simp [processField, hv, htk]
    simp [metaKGGet, hx, h1, h2, hfail]

/-- C5 witness: the abort theorem applied with an unknown object term, the
subject having expanded successfully. -/
theorem C5_expansion_failure_aborts_request_witness :
    metaKGGet tk0 ⟨some "Gene", some "Nope", none, true⟩
      = ⟨Except.error (HErr.badRequest (descErrorMsg "object" "Nope" "unknown term")),
          false⟩ :=
  (C5_expansion_failure_aborts_request tk0 ⟨some "Gene", some "Nope", none, true⟩
      "unknown term" rfl).2.1
    (some (FieldVal.lst ["Gene", "ProteinCodingGene"])) "Nope"
    (by decide) rfl (by decide) rfl

/-- C6: slug update, refresh, delete and uptime check all fail with NotFound
when the entry does not exist, and with Forbidden when the acting user is not
the owner — in both cases before any other validation, with the store
unchanged and no side effect performed. -/
theorem C6_mutations_existence_then_ownership
    (validate : String → Except String String) (store : Store)
    (u i : String) (e : RegistryEntry) (slug : Option String)
    (fetch : FetchResult) (fc : Option Nat) :
    (lookupId store i = none →
      putHandler validate store u i slug fetch
          = ⟨Except.error HErr.notFound, store, []⟩ ∧
      deleteHandler store u i = ⟨Except.error HErr.notFound, store, []⟩ ∧
      (i ≠ "" → uptimeGetHandler store u i fc
          = ⟨Except.error HErr.notFound, store, []⟩)) ∧
    (lookupId store i = some e → e.username ≠ u →
      putHandler validate store u i slug fetch
          = ⟨Except.error HErr.forbidden, store, []⟩ ∧
      deleteHandler store u i = ⟨Except.error HErr.forbidden, store, []⟩ ∧
      (i ≠ "" → uptimeGetHandler store u i fc
          = ⟨Except.error HErr.forbidden, store, []⟩)) := by
  constructor
  · intro h
    refine ⟨by simp [putHandler, h], by simp [deleteHandler, h], ?_⟩
    intro hi
    simp [uptimeGetHandler, hi, h]
  · intro h hw
    refine ⟨by simp [putHandler, h, hw], by simp [deleteHandler, h, hw], ?_⟩
    intro hi
    simp [uptimeGetHandler, hi, h, hw]

/-- C6 witness: the theorem applied at the concrete store, once with an absent
id and once with a non-owner acting user — the slug argument passing the
reserved value to show ownership is checked first. -/
theorem C6_mutations_existence_then_ownership_witness :
    (putHandler validate0 store0 "alice" "zz" (some "api") FetchResult.failure
        = ⟨Except.error HErr.notFound, store0, []⟩ ∧
      deleteHandler store0 "alice" "zz" = ⟨Except.error HErr.notFound, store0, []⟩ ∧
      uptimeGetHandler store0 "alice" "zz" (some 200)
        = ⟨Except.error HErr.notFound, store0, []⟩) ∧
    (putHandler validate0 store0 "mallory" "a1" (some "api") FetchResult.failure
        = ⟨Except.error HErr.forbidden, store0, []⟩ ∧
      deleteHandler store0 "mallory" "a1" = ⟨Except.error HErr.forbidden, store0, []⟩ ∧
      uptimeGetHandler store0 "mallory" "a1" (some 200)
        = ⟨Except.error HErr.forbidden, store0, []⟩) :=
  ⟨⟨((C6_mutations_existence_then_ownership validate0 store0 "alice" "zz" entry0
          (some "api") FetchResult.failure (some 200)).1 (by decide)).1,
    ((C6_mutations_existence_then_ownership validate0 store0 "alice" "zz" entry0
          (some "api") FetchResult.failure (some 200)).1 (by decide)).2.1,
    ((C6_mutations_existence_then_ownership validate0 store0 "alice" "zz" entry0
          (some "api") FetchResult.failure (some 200)).1 (by decide)).2.2 (by decide)⟩,
   ⟨((C6_mutations_existence_then_ownership validate0 store0 "mallory" "a1" entry0
          (some "api") FetchResult.failure (some 200)).2 (by decide) (by decide)).1,
    ((C6_mutations_existence_then_ownership validate0 store0 "mallory" "a1" entry0
          (some "api") FetchResult.failure (some 200)).2 (by decide) (by decide)).2.1,
    ((C6_mutations_existence_then_ownership validate0 store0 "mallory" "a1" entry0
          (some "api") FetchResult.failure (some 200)).2 (by decide) (by decide)).2.2
      (by decide)⟩⟩

/-- C7: a create request whose url is already registered fails with Conflict
regardless of payload, dryrun flag or fetch outcome, before any fetch or
validation — the store is unchanged and no side effect is performed. -/
theorem C7_duplicate_url_conflict
    (validate : String → Except String String) (store : Store)
    (u url : String) (dryrun : Bool) (fetch : Except String (Nat × String))
    (freshId : String) (h : urlExists store url = true) :
    postHandler validate store u url dryrun fetch freshId
      = ⟨Except.error HErr.conflict, store, []⟩ := by
  simp [postHandler, h]

/-- C7 witness: re-registering the url of the concrete stored entry with a
different payload conflicts. -/
theorem C7_duplicate_url_conflict_witness :
    postHandler validate0 store0 "bob" "https://example.org/api.json" false
        (Except.ok (200, "a-different-payload")) "n1"
      = ⟨Except.error HErr.conflict, store0, []⟩ :=
  C7_duplicate_url_conflict validate0 store0 "bob" "https://example.org/api.json"
    false (Except.ok (200, "a-different-payload")) "n1" (by decide)

/-- C8: a dryrun create whose document validates replies with the extracted
version, persists nothing — the store is unchanged, also across a repeated
call — and triggers no save or notification side effect. -/
theorem C8_dryrun_no_persistence
    (validate : String → Except String String) (store : Store)
    (u url : String) (code : Nat) (raw ver freshId : String)
    (hdup : urlExists store url = false) (hv : validate raw = Except.ok ver) :
    postHandler validate store u url true (Except.ok (code, raw)) freshId
      = ⟨Except.ok (PostResponse.dryrunOk ver), store, [Effect.fetched url]⟩ ∧
    postHandler validate
        (postHandler validate store u url true (Except.ok (code, raw)) freshId).store
        u url true (Except.ok (code, raw)) freshId
      = ⟨Except.ok (PostResponse.dryrunOk ver), store, [Effect.fetched url]⟩ ∧
    Effect.saved ∉
      (postHandler validate store u url true (Except.ok (code, raw)) freshId).effects ∧
    Effect.notified ∉
      (postHandler validate store u url true (Except.ok (code, raw)) freshId).effects := by
  have h1 : postHandler validate store u url true (Except.ok (code, raw)) freshId
      = ⟨Except.ok (PostResponse.dryrunOk ver), store, [Effect.fetched url]⟩ := by
    simp [postHandler, hdup, hv]
  refine ⟨h1, ?_, ?_, ?_⟩
  · rw [h1]
    exact h1
  · rw [h1]
    simp
  · rw [h1]
    simp

/-- C8 witness: the dryrun theorem applied at the concrete store with a fresh
url and a validating document. -/
theorem C8_dryrun_no_persistence_witness :
    urlExists store0 "https://example.org/new.json" = false ∧
    postHandler validate0 store0 "alice" "https://example.org/new.json" true
        (Except.ok (200, "openapi-doc")) "n1"
      = ⟨Except.ok (PostResponse.dryrunOk "3.0.0"), store0,
          [Effect.fetched "https://example.org/new.json"]⟩ :=
  ⟨by decide,
    (C8_dryrun_no_persistence validate0 store0 "alice" "https://example.org/new.json"
        200 "openapi-doc" "3.0.0" "n1" (by decide) rfl).1⟩

/-- C9: the MetaKG search document indexes subject, object and predicate as
case-folded keyword terms for exact-match filtering, while the stored source
copy used for display preserves the original case of each value. -/
theorem C9_metakg_fields_casefolded (s o p : String) :
    (indexMetaKGDoc s o p).subjectTerm = strToLower s ∧
    (indexMetaKGDoc s o p).objectTerm = strToLower o ∧
    (indexMetaKGDoc s o p).predicateTerm = strToLower p ∧
    (indexMetaKGDoc s o p).sourceSubject = s ∧
    (indexMetaKGDoc s o p).sourceObject = o ∧
    (indexMetaKGDoc s o p).sourcePredicate = p :=
  ⟨rfl, rfl, rfl, rfl, rfl, rfl⟩

/-- C10: a filter field holding the empty string is skipped exactly like an
absent field — it is never passed to the taxonomy lookup (so it cannot raise
the unknown-term error even with expand true), never wrapped into a
single-element match set and never defaulted, and the rest of the request
behaves identically. -/
theorem C10_empty_filter_skipped
    (tk : String → Except String (List String)) (n : String) (args : QueryArgs) :
    processField (some tk) n (some "") = Except.ok (some (FieldVal.str "")) ∧
    processField none n (some "") = Except.ok (some (FieldVal.str "")) ∧
    (metaKGGet tk { args with subject := some "" }).queryExecuted
      = (metaKGGet tk { args with subject := none }).queryExecuted ∧
    (∀ e, (metaKGGet tk { args with subject := some "" }).result = Except.error e
      ↔ (metaKGGet tk { args with subject := none }).result = Except.error e) ∧
    (∀ p1 p2,
      (metaKGGet tk { args with subject := some "" }).result = Except.ok p1 →
      (metaKGGet tk { args with subject := none }).result = Except.ok p2 →
      p1.subject = some (FieldVal.str "") ∧ p2.subject = none ∧
        p1.object = p2.object ∧ p1.predicate = p2.predicate) := by
  have hE : ∀ tkOpt name,
      processField tkOpt name (some "") = Except.ok (some (FieldVal.str "")) := by
    intro tkOpt name
    simp [processField]
  have hN : ∀ tkOpt name, processField tkOpt name (none : Option String)
      = Except.ok (none : Option FieldVal) := by
    intro tkOpt name
    simp [processField]
  refine ⟨hE _ _, hE _ _, ?_⟩
  cases hx : args.expand with
  | true =>
      cases ho : processField (some tk) "object" args.object with
      | error e => simp [metaKGGet, hx, ho, hE, hN]
      | ok O =>
          cases hp : processField (some tk) "predicate" args.predicate with
          | error e => simp [metaKGGet, hx, ho, hp, hE, hN]
          | ok P => simp [metaKGGet, hx, ho, hp, hE, hN]
  | false =>
      cases ho : processField none "object" args.object with
      | error e => simp [metaKGGet, hx, ho, hE, hN]
      | ok O =>
          cases hp : processField none "predicate" args.predicate with
          | error e => simp [metaKGGet, hx, ho, hp, hE, hN]
          | ok P => simp [metaKGGet, hx, ho, hp, hE, hN]

/-- C10 witness: with a lookup that fails on the empty string, a request whose
subject is empty still succeeds, the field left unprocessed, matching the
behavior with the subject absent. -/
theorem C10_empty_filter_skipped_witness :
    processField (some tk0) "subject" (some "") = Except.ok (some (FieldVal.str "")) ∧
    metaKGGet tk0 ⟨some "", some "Gene", none, true⟩
      = ⟨Except.ok ⟨some (FieldVal.str ""),
            some (FieldVal.lst ["Gene", "ProteinCodingGene"]), none⟩, true⟩ ∧
    metaKGGet tk0 ⟨none, some "Gene", none, true⟩
      = ⟨Except.ok ⟨none, some (FieldVal.lst ["Gene", "ProteinCodingGene"]), none⟩, true⟩ :=
  ⟨(C10_empty_filter_skipped tk0 "subject" ⟨some "", some "Gene", none, true⟩).1,
    by decide, by decide⟩

end SmartAPIReg
